import Mathlib

/-!
Verification development for the pmltools analyzer package
(src/pmlutils/python/analyzer).  The Python modules are shallowly
embedded: SQL queries over the SQLite store become pure functions over an
explicit relational state, pandas DataFrame post-processing becomes list
transformations, and the YAML configuration loader becomes a total
function over an explicit document type.  SQLite integers are modelled as
Int, SQL NULL as Option, and SQL floating-point results (AVG, usage
rates) as exact rationals; IEEE floating point representation error is
abstracted away.
-/

/-! ### Relational schema (section 3 of the spec, read-only store) -/

/-- Row of the source_files table. -/
structure SourceFile where
  file_id : Nat
  file_path : String
deriving DecidableEq

/-- Row of the classes table.  The source column named type is kept as
class_type_col to avoid clashing with the Lean keyword. -/
structure ClassRow where
  class_id : Nat
  file_id : Nat
  class_name : String
  class_type_col : Option String
  widget_type : Option String
  framework_type : Option String
  import_count : Option Int
deriving DecidableEq

/-- Row of the class_methods table.  The source column named
has_annotation is kept as annot_flag (its literal name is unavailable
here); it is the 0/1 flag tested by has_annotation = 0 in the queries. -/
structure MethodRow where
  method_id : Nat
  class_id : Nat
  method_name : String
  return_type : Option String
  param_count : Int
  is_async : Int
  is_static : Int
  annot_flag : Int
  cyclomatic_complexity : Int
  cognitive_complexity : Int
deriving DecidableEq

/-- The analysis database: the five tables the audit queries touch.
class_usage_references and method_usage_references are kept as their
single foreign-key column (referenced_class_id / referenced_method_id). -/
structure Database where
  source_files : List SourceFile
  classes : List ClassRow
  class_methods : List MethodRow
  class_usage_references : List Nat
  method_usage_references : List Nat
deriving DecidableEq

/-- The fixed lifecycle allow-list of audit_analyzer.py line 100:
method_name NOT IN (build, initState, dispose, createState). -/
def lifecycleMethods : List String := ["build", "initState", "dispose", "createState"]

/-! ### audit_analyzer.py - AuditAnalyzer.analyze_unused_methods -/

/-- FROM class_methods m JOIN classes c ON m.class_id = c.class_id
JOIN source_files sf ON c.file_id = sf.file_id (audit_analyzer.py
lines 92-94). -/
def methodJoin (db : Database) : List (SourceFile × ClassRow × MethodRow) :=
  db.class_methods.flatMap fun m =>
    (db.classes.filter fun c => m.class_id == c.class_id).flatMap fun c =>
      (db.source_files.filter fun sf => c.file_id == sf.file_id).map fun sf => (sf, c, m)

/-- The WHERE clause of analyze_unused_methods (lines 95-101): NOT EXISTS
a method_usage_references row for this method_id, method_name not in the
lifecycle list, and has_annotation = 0. -/
def unusedMethodPred (db : Database) (m : MethodRow) : Bool :=
  !(db.method_usage_references.any fun r => r == m.method_id) &&
  !(lifecycleMethods.any fun n => n == m.method_name) &&
  (m.annot_flag == 0)

/-- Joined rows surviving the WHERE clause of analyze_unused_methods. -/
def unusedMethodCandidates (db : Database) : List (SourceFile × ClassRow × MethodRow) :=
  (methodJoin db).filter fun t => unusedMethodPred db t.2.2

/-- Result row of analyze_unused_methods: the SELECT list of lines 82-91,
including the CASE WHEN is_async = 1 THEN Yes ELSE No projections. -/
structure UnusedMethodRow where
  file_name : String
  class_name : String
  method_name : String
  return_type : Option String
  param_count : Int
  is_async : String
  is_static : String
  cyclomatic_complexity : Int
  cognitive_complexity : Int
deriving DecidableEq

/-- SELECT projection of analyze_unused_methods. -/
def projUM (sf : SourceFile) (c : ClassRow) (m : MethodRow) : UnusedMethodRow :=
  { file_name := sf.file_path
    class_name := c.class_name
    method_name := m.method_name
    return_type := m.return_type
    param_count := m.param_count
    is_async := if m.is_async = 1 then "Yes" else "No"
    is_static := if m.is_static = 1 then "Yes" else "No"
    cyclomatic_complexity := m.cyclomatic_complexity
    cognitive_complexity := m.cognitive_complexity }

/-- Sort key of ORDER BY m.cyclomatic_complexity DESC, sf.file_path,
c.class_name, m.method_name (line 102): descending complexity is encoded
by negating it inside an ascending lexicographic key. -/
def umKey (r : UnusedMethodRow) : Int ×ₗ (String ×ₗ (String ×ₗ String)) :=
  toLex (-r.cyclomatic_complexity, toLex (r.file_name, toLex (r.class_name, r.method_name)))

/-- Row order realised by the ORDER BY of analyze_unused_methods. -/
def umRel (a b : UnusedMethodRow) : Prop := umKey a ≤ umKey b

instance : DecidableRel umRel := fun a b => inferInstanceAs (Decidable (umKey a ≤ umKey b))

instance : IsTotal UnusedMethodRow umRel := ⟨fun a b => le_total (umKey a) (umKey b)⟩

instance : IsTrans UnusedMethodRow umRel := ⟨fun _ _ _ h h2 => le_trans h h2⟩

/-- AuditAnalyzer.analyze_unused_methods (audit_analyzer.py lines
71-118): join, anti-join WHERE clause, SELECT projection, ORDER BY. -/
def analyze_unused_methods (db : Database) : List UnusedMethodRow :=
  List.insertionSort umRel ((unusedMethodCandidates db).map fun t => projUM t.1 t.2.1 t.2.2)

/-! ### audit_analyzer.py - AuditAnalyzer.analyze_unused_classes -/

/-- FROM classes c JOIN source_files sf ON c.file_id = sf.file_id
(lines 147-148). -/
def classJoin (db : Database) : List (SourceFile × ClassRow) :=
  db.classes.flatMap fun c =>
    (db.source_files.filter fun sf => c.file_id == sf.file_id).map fun sf => (sf, c)

/-- WHERE NOT EXISTS a class_usage_references row whose
referenced_class_id equals this class_id (lines 149-153). -/
def unusedClassPred (db : Database) (c : ClassRow) : Bool :=
  !(db.class_usage_references.any fun r => r == c.class_id)

/-- Joined rows surviving the WHERE clause of analyze_unused_classes. -/
def unusedClassCandidates (db : Database) : List (SourceFile × ClassRow) :=
  (classJoin db).filter fun t => unusedClassPred db t.2

/-- Result row of analyze_unused_classes: SELECT list of lines 131-146
with the two correlated scalar subqueries (method count and average
cyclomatic complexity over the child method rows; AVG is NULL when the
class has no methods). -/
structure UnusedClassRow where
  file_name : String
  class_name : String
  class_type : Option String
  widget_type : Option String
  framework_type : Option String
  method_count : Nat
  avg_complexity : Option ℚ
deriving DecidableEq

/-- Child method rows of a class (the correlated subqueries on
class_methods m WHERE m.class_id = c.class_id). -/
def methodsOfClass (db : Database) (c : ClassRow) : List MethodRow :=
  db.class_methods.filter fun m => m.class_id == c.class_id

/-- SELECT projection of analyze_unused_classes, including the COUNT and
AVG scalar subqueries. -/
def projUC (db : Database) (sf : SourceFile) (c : ClassRow) : UnusedClassRow :=
  let ms := methodsOfClass db c
  { file_name := sf.file_path
    class_name := c.class_name
    class_type := c.class_type_col
    widget_type := c.widget_type
    framework_type := c.framework_type
    method_count := ms.length
    avg_complexity :=
      if ms.isEmpty then none
      else some (((ms.map fun m => m.cyclomatic_complexity).sum : ℚ) / (ms.length : ℚ)) }

/-- Sort key of ORDER BY sf.file_path, c.class_name (line 154). -/
def ucKey (r : UnusedClassRow) : String ×ₗ String := toLex (r.file_name, r.class_name)

/-- Row order realised by the ORDER BY of analyze_unused_classes. -/
def ucRel (a b : UnusedClassRow) : Prop := ucKey a ≤ ucKey b

instance : DecidableRel ucRel := fun a b => inferInstanceAs (Decidable (ucKey a ≤ ucKey b))

instance : IsTotal UnusedClassRow ucRel := ⟨fun a b => le_total (ucKey a) (ucKey b)⟩

instance : IsTrans UnusedClassRow ucRel := ⟨fun _ _ _ h h2 => le_trans h h2⟩

/-- AuditAnalyzer.analyze_unused_classes (audit_analyzer.py lines
120-167). -/
def analyze_unused_classes (db : Database) : List UnusedClassRow :=
  List.insertionSort ucRel ((unusedClassCandidates db).map fun t => projUC db t.1 t.2)

/-! ### audit_analyzer.py - AuditAnalyzer.get_usage_statistics -/

/-- Round-half-to-even at integer precision over exact rationals: the
rounding used by pandas Series.round (audit_analyzer.py line 203), with
IEEE binary representation abstracted to exact arithmetic. -/
def roundHalfEven (q : ℚ) : ℤ :=
  if q - ⌊q⌋ < 1 / 2 then ⌊q⌋
  else if 1 / 2 < q - ⌊q⌋ then ⌊q⌋ + 1
  else if ⌊q⌋ % 2 = 0 then ⌊q⌋ else ⌊q⌋ + 1

/-- pandas .round(1): round-half-even at one decimal place. -/
def roundTo1 (q : ℚ) : ℚ := (roundHalfEven (q * 10) : ℚ) / 10

/-- SQLite ROUND(x, 1): round half away from zero at one decimal. -/
def sqlRound1 (q : ℚ) : ℚ :=
  if 0 ≤ q then (⌊q * 10 + 1 / 2⌋ : ℚ) / 10 else -((⌊-q * 10 + 1 / 2⌋ : ℚ) / 10)

/-- SQL ROUND(AVG(column), 1) over the non-NULL values of a column: NULL
when there is no non-NULL value. -/
def sqlRoundAvg (xs : List Int) : Option ℚ :=
  if xs.isEmpty then none else some (sqlRound1 ((xs.sum : ℚ) / (xs.length : ℚ)))

/-- EXISTS a class_usage_references row for this class (lines 183-186). -/
def classUsed (db : Database) (c : ClassRow) : Bool :=
  db.class_usage_references.any fun r => r == c.class_id

/-- EXISTS a method_usage_references row for this method (lines 193-196). -/
def methodUsed (db : Database) (m : MethodRow) : Bool :=
  db.method_usage_references.any fun r => r == m.method_id

/-- Result row of get_usage_statistics.  used models
SUM(CASE WHEN EXISTS ... THEN 1 ELSE 0 END), which is SQL NULL over an
empty table; avg_imports models ROUND(AVG(...), 1) (the UNION names the
second row column, AVG(param_count), after the first row column); the
usage_rate column is appended by pandas afterwards. -/
structure UsageStatRow where
  category : String
  total : Nat
  used : Option Nat
  avg_imports : Option ℚ
  usage_rate : Option ℚ
deriving DecidableEq

/-- First row of the UNION ALL (lines 180-188): the Classes row before
the pandas usage_rate column is appended. -/
def classStatsRow (db : Database) : UsageStatRow :=
  { category := "Classes"
    total := db.classes.length
    used := if db.classes.isEmpty then none
            else some (db.classes.countP fun c => classUsed db c)
    avg_imports := sqlRoundAvg (db.classes.filterMap fun c => c.import_count)
    usage_rate := none }

/-- Second row of the UNION ALL (lines 190-198): the Methods row before
the pandas usage_rate column is appended. -/
def methodStatsRow (db : Database) : UsageStatRow :=
  { category := "Methods"
    total := db.class_methods.length
    used := if db.class_methods.isEmpty then none
            else some (db.class_methods.countP fun m => methodUsed db m)
    avg_imports := sqlRoundAvg (db.class_methods.map fun m => m.param_count)
    usage_rate := none }

/-- The pandas assignment of line 203:
df usage_rate = (df used / df total * 100).round(1), propagating NULL
(NaN) used values to a NULL rate. -/
def addUsageRate (r : UsageStatRow) : UsageStatRow :=
  { r with usage_rate := r.used.map fun u => roundTo1 ((u : ℚ) / (r.total : ℚ) * 100) }

/-- AuditAnalyzer.get_usage_statistics (audit_analyzer.py lines
169-208): the two unioned SQL rows followed by the pandas usage_rate
column. -/
def get_usage_statistics (db : Database) : List UsageStatRow :=
  [classStatsRow db, methodStatsRow db].map addUsageRate

/-! ### config.py - AnalyzerConfig -/

/-- A parsed YAML document as far as pml.yaml uses it: string and
boolean scalars, lists of strings, and key-value tables. -/
inductive Yaml where
  | str (s : String)
  | boolV (b : Bool)
  | strList (xs : List String)
  | table (entries : List (String × Yaml))

/-- Subscripting a parsed document: config[k] succeeds only on a table
holding the key (a missing key raises KeyError in Python, a non-table
raises TypeError; both are failures here). -/
def Yaml.get : Yaml → String → Option Yaml
  | .table es, k => (es.find? fun e => e.1 == k).map fun e => e.2
  | _, _ => none

/-- A string leaf (the loaded value for a string-typed setting). -/
def Yaml.asStr : Yaml → Option String
  | .str s => some s
  | _ => none

/-- A boolean leaf. -/
def Yaml.asBool : Yaml → Option Bool
  | .boolV b => some b
  | _ => none

/-- A list-of-strings leaf. -/
def Yaml.asStrList : Yaml → Option (List String)
  | .strList xs => some xs
  | _ => none

/-- Chained subscripting config[k1][k2]... -/
def getPath (y : Yaml) (ks : List String) : Option Yaml :=
  ks.foldl (fun acc k => acc.bind fun v => v.get k) (some y)

/-- Chained subscripting ending in a string leaf. -/
def getStr (y : Yaml) (ks : List String) : Option String :=
  (getPath y ks).bind Yaml.asStr

/-- Chained subscripting ending in a boolean leaf. -/
def getBool (y : Yaml) (ks : List String) : Option Bool :=
  (getPath y ks).bind Yaml.asBool

/-- Chained subscripting ending in a list-of-strings leaf. -/
def getStrList (y : Yaml) (ks : List String) : Option (List String) :=
  (getPath y ks).bind Yaml.asStrList

/-- The configuration fields of AnalyzerConfig (config.py lines 27-44). -/
structure AnalyzerConfig where
  app_name : String
  lib_dir : String
  excluded_dirs : List String
  excluded_files : List String
  db_dir : String
  db_name : String
  cleanup_on_start : Bool
  output_doc_dir : String
  output_reports_dir : String
  output_temp_dir : String
  log_level : String
  log_file : String
  log_to_console : Bool
deriving DecidableEq

/-- The compiled-in defaults assigned in AnalyzerConfig init before
_load_pml_config runs (config.py lines 29-41). -/
def defaultConfig : AnalyzerConfig :=
  { app_name := "minssalor"
    lib_dir := "lib"
    excluded_dirs := ["lib/generated"]
    excluded_files := [".freezed.dart", ".g.dart", "_test.dart"]
    db_dir := "pmlutils/database"
    db_name := "analysis.db"
    cleanup_on_start := true
    output_doc_dir := "pmlutils/output/doc"
    output_reports_dir := "pmlutils/output/reports"
    output_temp_dir := "pmlutils/output/temp"
    log_level := "info"
    log_file := "pmlutils/logs/analysis.log"
    log_to_console := true }

/-- The assignment sequence of _load_pml_config (config.py lines 55-80)
over an already parsed document.  Each Python subscript chain is one
lookup here; the first failing lookup raises, the except clause catches
it, and the state reached so far is kept: every field assigned before
the failure keeps its loaded value, every later field its default.
The final console lookup mirrors dict.get(key, True): it cannot fail,
absent or non-boolean values fall back to True. -/
def loadFromYaml (y : Yaml) : AnalyzerConfig :=
  let c := defaultConfig
  match getStr y ["app", "name"] with
  | none => c
  | some v1 =>
  let c := { c with app_name := v1 }
  match getStr y ["app", "lib_dir"] with
  | none => c
  | some v2 =>
  let c := { c with lib_dir := v2 }
  match getStrList y ["analyzer", "excluded", "dirs"] with
  | none => c
  | some v3 =>
  let c := { c with excluded_dirs := v3 }
  match getStrList y ["analyzer", "excluded", "files"] with
  | none => c
  | some v4 =>
  let c := { c with excluded_files := v4 }
  match getStr y ["analyzer", "database", "dir"] with
  | none => c
  | some v5 =>
  let c := { c with db_dir := v5 }
  match getStr y ["analyzer", "database", "name"] with
  | none => c
  | some v6 =>
  let c := { c with db_name := v6 }
  match getBool y ["analyzer", "database", "cleanup_on_start"] with
  | none => c
  | some v7 =>
  let c := { c with cleanup_on_start := v7 }
  match getStr y ["output", "doc_dir"] with
  | none => c
  | some v8 =>
  let c := { c with output_doc_dir := v8 }
  match getStr y ["output", "reports_dir"] with
  | none => c
  | some v9 =>
  let c := { c with output_reports_dir := v9 }
  match getStr y ["output", "temp_dir"] with
  | none => c
  | some v10 =>
  let c := { c with output_temp_dir := v10 }
  match getStr y ["logging", "level"] with
  | none => c
  | some v11 =>
  let c := { c with log_level := v11 }
  match getStr y ["logging", "file"] with
  | none => c
  | some v12 =>
  let c := { c with log_file := v12 }
  { c with log_to_console := ((getBool y ["logging", "console"]).getD true) }

/-- AnalyzerConfig construction (config.py lines 27-84): defaults, then
_load_pml_config, whose try/except means construction is a total
function of the parsed document; none stands for a missing, unreadable
or unparseable pml.yaml (open or yaml.safe_load failed). -/
def loadPmlConfig (doc : Option Yaml) : AnalyzerConfig :=
  match doc with
  | none => defaultConfig
  | some y => loadFromYaml y

/-- A structurally malformed document: a valid app section but no
analyzer, output or logging sections. -/
def cexDoc : Yaml :=
  .table [("app", .table [("name", .str "other"), ("lib_dir", .str "src")])]

/-- A document whose first seven lookups succeed and whose eighth
(output.doc_dir) fails: complete app and analyzer sections, no output
section. -/
def cexDoc8 : Yaml :=
  .table
    [ ("app", .table [("name", .str "other"), ("lib_dir", .str "src")]),
      ("analyzer", .table
        [ ("excluded", .table
            [("dirs", .strList ["src/gen"]), ("files", .strList [".g.dart"])]),
          ("database", .table
            [("dir", .str "db"), ("name", .str "a.db"),
             ("cleanup_on_start", .boolV false)]) ]) ]

/-! ### doc_analyzer.py - DocAnalyzer.extract_claude_doc / process_file -/

/-- Python regex whitespace class over source characters. -/
def isPyWs (c : Char) : Bool := c.isWhitespace

/-- Drop an exact literal prefix from the input, returning the rest. -/
def dropLit : List Char → List Char → Option (List Char)
  | [], s => some s
  | _ :: _, [] => none
  | p :: ps, c :: cs => if p = c then dropLit ps cs else none

/-- Head match of the regex fragment three-slashes, whitespace star,
claude opening tag.  The greedy whitespace star has a unique outcome
because no whitespace character can begin the tag. -/
def matchOpenTag (s : List Char) : Option (List Char) :=
  (dropLit "///".toList s).bind fun r => dropLit "<claude>".toList (r.dropWhile isPyWs)

/-- Leftmost occurrence of the opening fragment, as the remainder of
the input after it (re.search scans candidate positions left to
right). -/
def findOpenTag : List Char → Option (List Char)
  | [] => none
  | c :: cs =>
    match matchOpenTag (c :: cs) with
    | some r => some r
    | none => findOpenTag cs

/-- Head match of the closing fragment three-slashes, whitespace star,
claude closing tag. -/
def matchCloseTag (s : List Char) : Option (List Char) :=
  (dropLit "///".toList s).bind fun r => dropLit "</claude>".toList (r.dropWhile isPyWs)

/-- The non-greedy dot-star capture under re.DOTALL: the characters up
to the first position where the closing fragment matches; none when it
never matches. -/
def captureUpToClose : List Char → Option (List Char)
  | [] => none
  | c :: cs =>
    if (matchCloseTag (c :: cs)).isSome then some []
    else (captureUpToClose cs).map fun r => c :: r

/-- Python str.strip: remove leading and trailing whitespace. -/
def pyStrip (s : List Char) : List Char :=
  List.rdropWhile isPyWs (s.dropWhile isPyWs)

/-- DocAnalyzer.extract_claude_doc (doc_analyzer.py lines 71-84):
re.search of the delimited-block pattern with re.DOTALL, returning the
captured group stripped, or None when the pattern does not occur.  An
opening fragment can never begin strictly inside another one (the
characters after the leading slashes are whitespace or tag characters,
never a slash), so the leftmost full match starts at the first opening
fragment and its non-greedy capture ends at the first closing fragment
after it - which is what this function computes. -/
def extract_claude_doc (content : List Char) : Option (List Char) :=
  (findOpenTag content).bind fun rest => (captureUpToClose rest).map pyStrip

/-- os.path.relpath as used by process_file, in the normal case where
the file lies under the source root (paths already normalised). -/
def relPathOf (lib_path file_path : String) : String :=
  if (lib_path ++ "/").toList.isPrefixOf file_path.toList
  then String.mk (file_path.toList.drop (lib_path ++ "/").length)
  else file_path

/-- The record appended to self.docs by process_file. -/
structure DocRecord where
  path : String
  doc : List Char
deriving DecidableEq

/-- DocAnalyzer.process_file (doc_analyzer.py lines 86-106) acting on
the docs accumulator: the record is appended only when the Python
truthiness test on the extracted doc passes, that is when
extract_claude_doc returned neither None nor an empty string. -/
def process_file (lib_path file_path : String) (content : List Char)
    (docs : List DocRecord) : List DocRecord :=
  match extract_claude_doc content with
  | some d => if d.isEmpty then docs else docs ++ [⟨relPathOf lib_path file_path, d⟩]
  | none => docs

/-- A file content whose single delimited block has only whitespace
between the markers. -/
def emptyBlockContent : List Char := "///<claude> ///</claude>".toList

/-- A file content with one well-formed block whose trimmed text is
Hello. -/
def docContentW : List Char := "///<claude> Hello ///</claude> end".toList

/-! ### doc_analyzer.py - DocAnalyzer.scan_directory -/

/-- Python str.startswith: character-sequence prefix test. -/
def pyStartsWith (s pre : String) : Bool := pre.toList.isPrefixOf s.toList

/-- Python str.endswith: character-sequence suffix test. -/
def pyEndsWith (s suf : String) : Bool := suf.toList.isSuffixOf s.toList

/-- os.path.join of a directory path and a child name. -/
def pathJoin (root d : String) : String := root ++ "/" ++ d

/-- The file test of scan_directory (doc_analyzer.py lines 122-124):
the name ends with .dart and with none of the excluded suffixes. -/
def fileKeep (excluded_files : List String) (f : String) : Bool :=
  pyEndsWith f ".dart" && !(excluded_files.any fun e => pyEndsWith f e)

/-- The in-place dirs pruning of scan_directory (lines 117-120): a
subdirectory is kept unless its joined path starts with one of the
excluded directory prefixes. -/
def dirKeep (excluded_dirs : List String) (root d : String) : Bool :=
  !(excluded_dirs.any fun e => pyStartsWith (pathJoin root d) e)

/-- A directory tree under the source root: a name, subdirectories and
plain file names. -/
inductive FSTree where
  | node (name : String) (subdirs : List FSTree) (files : List String)

/-- Name of a directory node. -/
def FSTree.name : FSTree → String
  | .node n _ _ => n

mutual
/-- DocAnalyzer.scan_directory (doc_analyzer.py lines 108-132) as
os.walk with top-down pruning: at each visited directory the files
passing fileKeep are processed (paired with the directory path they
are processed from), and the walk then descends only into
subdirectories passing dirKeep.  The root is visited unconditionally,
exactly as os.walk visits its starting directory.  Filtering the dirs
list first and then descending is expressed here by guarding each
child with its dirKeep test. -/
def scanTree (excD excF : List String) (path : String) : FSTree → List (String × String)
  | .node _ subdirs files =>
    ((files.filter fun f => fileKeep excF f).map fun f => (path, f)) ++
    scanSubdirs excD excF path subdirs

/-- Descent into the pruned subdirectory list, in order. -/
def scanSubdirs (excD excF : List String) (path : String) :
    List FSTree → List (String × String)
  | [] => []
  | t :: ts =>
    (if dirKeep excD path t.name then scanTree excD excF (pathJoin path t.name) t else []) ++
    scanSubdirs excD excF path ts
end

/-- The tree of the C7 counterexample: the source root itself matches
an excluded prefix and directly holds one dart file. -/
def rootOnlyTree : FSTree := .node "lib" [] ["a.dart"]

/-- The tree of the C7 witness: an excluded generated subdirectory and
a kept src subdirectory with one excluded-suffix file. -/
def witnessTree : FSTree :=
  .node "lib"
    [.node "generated" [] ["g.dart"], .node "src" [] ["a.dart", "b.g.dart", "notes.txt"]]
    ["top.dart"]

/-! ### dart_analyzer.py - DataFrames, export_to_excel, sheet formats -/

/-- A DataFrame cell: missing value, string, integer or boolean.  The
floating-point cells of the audit frames are not needed by any claim
and are abstracted away. -/
inductive Cell where
  | na
  | s (v : String)
  | i (v : Int)
  | b (v : Bool)
deriving DecidableEq

/-- A pandas column dtype as far as the export logic inspects it:
select_dtypes(include=[bool]) keys on the bool dtype. -/
inductive DType where
  | int
  | boolT
  | obj
deriving DecidableEq

/-- A DataFrame column: header name, dtype, cells top to bottom. -/
structure Column where
  name : String
  dtype : DType
  cells : List Cell
deriving DecidableEq

/-- Result row of DartCodeAnalyzer.analyze_methods (dart_analyzer.py
lines 104-128): the SELECT list keeps is_async and is_static as the raw
stored integers - unlike the audit query there is no CASE mapping. -/
structure DartMethodRow where
  file_name : String
  class_name : String
  method_name : String
  return_type : Option String
  param_count : Int
  cyclomatic_complexity : Int
  cognitive_complexity : Int
  is_async : Int
  is_static : Int
deriving DecidableEq

/-- WHERE clause of analyze_methods (lines 119-121): same lifecycle and
annotation exclusions as the audit query, but no usage anti-join. -/
def dartMethodPred (m : MethodRow) : Bool :=
  !(lifecycleMethods.any fun n => n == m.method_name) && (m.annot_flag == 0)

/-- SELECT projection of analyze_methods. -/
def projDM (sf : SourceFile) (c : ClassRow) (m : MethodRow) : DartMethodRow :=
  { file_name := sf.file_path
    class_name := c.class_name
    method_name := m.method_name
    return_type := m.return_type
    param_count := m.param_count
    cyclomatic_complexity := m.cyclomatic_complexity
    cognitive_complexity := m.cognitive_complexity
    is_async := m.is_async
    is_static := m.is_static }

/-- Sort key of ORDER BY cyclomatic DESC, cognitive DESC, file path,
class name, method name (lines 122-127). -/
def dmKey (r : DartMethodRow) : Int ×ₗ (Int ×ₗ (String ×ₗ (String ×ₗ String))) :=
  toLex (-r.cyclomatic_complexity,
    toLex (-r.cognitive_complexity,
      toLex (r.file_name, toLex (r.class_name, r.method_name))))

/-- Row order realised by the ORDER BY of analyze_methods. -/
def dmRel (a b : DartMethodRow) : Prop := dmKey a ≤ dmKey b

instance : DecidableRel dmRel := fun a b => inferInstanceAs (Decidable (dmKey a ≤ dmKey b))

instance : IsTotal DartMethodRow dmRel := ⟨fun a b => le_total (dmKey a) (dmKey b)⟩

instance : IsTrans DartMethodRow dmRel := ⟨fun _ _ _ h h2 => le_trans h h2⟩

/-- The sorted row list of analyze_methods. -/
def dartMethodRows (db : Database) : List DartMethodRow :=
  List.insertionSort dmRel
    (((methodJoin db).filter fun t => dartMethodPred t.2.2).map fun t => projDM t.1 t.2.1 t.2.2)

/-- An optional string as stored in a pandas object column (SQL NULL
stays a missing value). -/
def optStrCell : Option String → Cell
  | some v => .s v
  | none => .na

/-- DartCodeAnalyzer.analyze_methods as the DataFrame handed to
export_to_excel: one column per selected expression.  sqlite3 returns
Python ints for INTEGER columns (SQLite has no boolean storage class),
so pandas infers int64 for param_count, the complexities, is_async and
is_static - never the bool dtype. -/
def analyze_methods (db : Database) : List Column :=
  let rows := dartMethodRows db
  [ ⟨"file_name", .obj, rows.map fun r => .s r.file_name⟩,
    ⟨"class_name", .obj, rows.map fun r => .s r.class_name⟩,
    ⟨"method_name", .obj, rows.map fun r => .s r.method_name⟩,
    ⟨"return_type", .obj, rows.map fun r => optStrCell r.return_type⟩,
    ⟨"param_count", .int, rows.map fun r => .i r.param_count⟩,
    ⟨"cyclomatic_complexity", .int, rows.map fun r => .i r.cyclomatic_complexity⟩,
    ⟨"cognitive_complexity", .int, rows.map fun r => .i r.cognitive_complexity⟩,
    ⟨"is_async", .int, rows.map fun r => .i r.is_async⟩,
    ⟨"is_static", .int, rows.map fun r => .i r.is_static⟩ ]

/-- df.fillna of export_to_excel (line 241): missing values become the
empty string. -/
def fillCell : Cell → Cell
  | .na => .s ""
  | c => c

/-- The bool-column map of line 243: True to Yes, False to No.  It is
applied only to bool-dtype columns, whose cells are booleans. -/
def yesNoCell : Cell → Cell
  | .b true => .s "Yes"
  | .b false => .s "No"
  | c => c

/-- Per-column preprocessing of export_to_excel (lines 239-244):
fillna over every column, then the Yes/No map over columns whose dtype
is bool - the only columns select_dtypes(include=[bool]) yields. -/
def preprocessColumn (c : Column) : Column :=
  let c1 : Column := { c with cells := c.cells.map fillCell }
  if c.dtype = DType.boolT then { c1 with cells := c1.cells.map yesNoCell } else c1

/-- DartCodeAnalyzer.export_to_excel (dart_analyzer.py lines 224-259)
as the sheets actually written: sheet names truncated to 31 characters,
every DataFrame preprocessed. -/
def export_to_excel (dfs : List (String × List Column)) : List (String × List Column) :=
  dfs.map fun p => (p.1.take 31, p.2.map preprocessColumn)

/-- Columns of the Methods sheet as exported by run_all_analyses for a
database state. -/
def exportedMethodsSheet (db : Database) : List (String × List Column) :=
  export_to_excel [("Methods", analyze_methods db)]

/-- First column with the given header. -/
def findCol (cols : List Column) (nm : String) : Option Column :=
  cols.find? fun c => c.name == nm

/-- str(cell) as pandas astype(str) renders the modelled cells (missing
object values print as None). -/
def cellStr : Cell → String
  | .na => "None"
  | .s v => v
  | .i v => toString v
  | .b true => "True"
  | .b false => "False"

/-- max_length of _format_excel_sheet (audit_analyzer.py lines
246-249): the longer of the longest stringified cell and the header
length.  The source computes the cell maximum with Series.max, defined
only over at least one row; the fold with base 0 coincides with it on
every non-empty column. -/
def colMaxLen (c : Column) : Nat :=
  max ((c.cells.map fun cell => (cellStr cell).length).foldr max 0) c.name.length

/-- The width assigned to one column (line 250): min(max_length + 2, 50). -/
def columnWidth (c : Column) : Nat := min (colMaxLen c + 2) 50

/-- The enumerate loop of the sheet formatters: column index idx gets
spreadsheet column letter chr(65 + idx). -/
def formatFrom (i : Nat) : List Column → List (Char × Nat)
  | [] => []
  | c :: cs => (Char.ofNat (65 + i), columnWidth c) :: formatFrom (i + 1) cs

/-- The width assignments of AuditAnalyzer._format_excel_sheet
(audit_analyzer.py lines 238-250), of the textually identical
DartCodeAnalyzer._format_excel_sheet (dart_analyzer.py lines 261-273)
and of the inline loop in SchemaDocAnalyzer.export_documentation
(schema_doc_analyzer.py lines 271-278): the list of
(column letter, width) pairs written to worksheet.column_dimensions. -/
def format_excel_sheet (cols : List Column) : List (Char × Nat) :=
  formatFrom 0 cols

/-! ### Concrete states used to witness the theorems -/

/-- A source file row used by the witness databases. -/
def sfW : SourceFile := ⟨1, "lib/a.dart"⟩

/-- A class row with class_id 1 used by the witness databases. -/
def cW : ClassRow := ⟨1, 1, "Alpha", some "class", none, none, some 3⟩

/-- A plain method row (not lifecycle-named, not annotated). -/
def mW : MethodRow := ⟨1, 1, "compute", some "int", 2, 0, 0, 0, 3, 4⟩

/-- Witness database: one file, one class, one method, no usage rows. -/
def dbW1 : Database :=
  { source_files := [sfW]
    classes := [cW]
    class_methods := [mW]
    class_usage_references := []
    method_usage_references := [] }

/-- dbW1 after inserting one class_usage_references row with
referenced_class_id = 1 (the scenario of the spec, section 8). -/
def dbW2 : Database := { dbW1 with class_usage_references := [1] }

/-- An asynchronous method row (is_async stored as integer 1). -/
def mW8 : MethodRow := ⟨1, 1, "run", some "void", 0, 1, 0, 0, 2, 2⟩

/-- Witness database whose single method is asynchronous. -/
def dbW8 : Database := { dbW1 with class_methods := [mW8] }

/-- A one-sheet frame with one genuine bool-dtype column. -/
def dfsW : List (String × List Column) :=
  [("S", [⟨"flag", DType.boolT, [Cell.b true, Cell.b false]⟩])]

/-- A one-cell string column with header n: its longest cell and its
header both have length 1. -/
def colW9 : Column := ⟨"n", DType.obj, [Cell.s "x"]⟩

/-- Twenty-seven one-cell columns, to drive the letter assignments past
the alphabet. -/
def colsW10 : List Column := List.replicate 27 colW9

/-! ### Theorems -/

/-- Membership characterisation of the unused-method candidate rows. -/
theorem mem_unusedMethodCandidates (db : Database) (t : SourceFile × ClassRow × MethodRow) :
    t ∈ unusedMethodCandidates db ↔
      t ∈ methodJoin db ∧
      t.2.2.method_id ∉ db.method_usage_references ∧
      t.2.2.method_name ∉ lifecycleMethods ∧
      t.2.2.annot_flag = 0 := by
  simp only [unusedMethodCandidates, unusedMethodPred, List.mem_filter, List.any_eq_true,
    Bool.and_eq_true, Bool.not_eq_true', List.any_eq_false, beq_iff_eq, beq_eq_false_iff_ne,
    ne_eq, and_assoc]
  constructor
  · rintro ⟨hj, h1, h2, h3⟩
    exact ⟨hj, fun hmem => h1 _ hmem rfl, fun hmem => h2 _ hmem rfl, h3⟩
  · rintro ⟨hj, h1, h2, h3⟩
    exact ⟨hj, fun x hx he => h1 (he ▸ hx), fun x hx he => h2 (he ▸ hx), h3⟩

/-- C1: a joined method row survives into the unused-methods result
exactly when it has no method_usage_references row, its name is not one
of the four lifecycle names, and its annotation flag is 0; every row of
the final report arises from such a surviving joined row, so the report
never contains a lifecycle-named or annotated method. -/
theorem analyze_unused_methods_mem (db : Database) (sf : SourceFile) (c : ClassRow)
    (m : MethodRow) (hj : (sf, c, m) ∈ methodJoin db) :
    ((sf, c, m) ∈ unusedMethodCandidates db ↔
      m.method_id ∉ db.method_usage_references ∧
      m.method_name ∉ lifecycleMethods ∧
      m.annot_flag = 0)
    ∧ ((sf, c, m) ∈ unusedMethodCandidates db →
        projUM sf c m ∈ analyze_unused_methods db)
    ∧ (∀ row ∈ analyze_unused_methods db,
        ∃ sf2 c2 m2, (sf2, c2, m2) ∈ methodJoin db ∧
          m2.method_id ∉ db.method_usage_references ∧
          m2.method_name ∉ lifecycleMethods ∧
          m2.annot_flag = 0 ∧ row = projUM sf2 c2 m2) := by
  refine ⟨?_, ?_, ?_⟩
  · rw [mem_unusedMethodCandidates]
    simp [hj]
  · intro hc
    unfold analyze_unused_methods
    rw [List.mem_insertionSort]
    exact List.mem_map_of_mem _ hc
  · intro row hrow
    unfold analyze_unused_methods at hrow
    rw [List.mem_insertionSort, List.mem_map] at hrow
    obtain ⟨⟨sf2, c2, m2⟩, hmem, hproj⟩ := hrow
    rw [mem_unusedMethodCandidates] at hmem
    exact ⟨sf2, c2, m2, hmem.1, hmem.2.1, hmem.2.2.1, hmem.2.2.2, hproj.symm⟩

/-- Membership characterisation of the unused-class candidate rows. -/
theorem mem_unusedClassCandidates (db : Database) (sf : SourceFile) (c : ClassRow) :
    (sf, c) ∈ unusedClassCandidates db ↔
      c ∈ db.classes ∧ sf ∈ db.source_files ∧ c.file_id = sf.file_id ∧
      c.class_id ∉ db.class_usage_references := by
  simp only [unusedClassCandidates, unusedClassPred, classJoin, List.mem_filter,
    List.mem_flatMap, List.mem_map, Bool.not_eq_true', List.any_eq_false,
    beq_eq_false_iff_ne, ne_eq, beq_iff_eq, Prod.mk.injEq]
  constructor
  · rintro ⟨⟨c2, hc2, sf2, hsf2, hsfeq, hceq⟩, hpred⟩
    subst hsfeq; subst hceq
    exact ⟨hc2, hsf2.1, hsf2.2, fun hmem => hpred _ hmem rfl⟩
  · rintro ⟨hc2, hsf2, hlink, hnot⟩
    exact ⟨⟨c, hc2, sf, ⟨hsf2, hlink⟩, rfl, rfl⟩, fun x hx he => hnot (he ▸ hx)⟩

/-- C2: a class row (joined to its source file) survives into the
unused-classes result exactly when no class_usage_references row points
at its class_id; surviving rows appear in the final report and every
report row arises from a surviving joined row. -/
theorem analyze_unused_classes_mem (db : Database) (sf : SourceFile) (c : ClassRow)
    (hsf : sf ∈ db.source_files) (hc : c ∈ db.classes) (hlink : c.file_id = sf.file_id) :
    ((sf, c) ∈ unusedClassCandidates db ↔ c.class_id ∉ db.class_usage_references)
    ∧ ((sf, c) ∈ unusedClassCandidates db → projUC db sf c ∈ analyze_unused_classes db)
    ∧ (∀ row ∈ analyze_unused_classes db,
        ∃ sf2 c2, c2 ∈ db.classes ∧ sf2 ∈ db.source_files ∧ c2.file_id = sf2.file_id ∧
          c2.class_id ∉ db.class_usage_references ∧ row = projUC db sf2 c2) := by
  refine ⟨?_, ?_, ?_⟩
  · rw [mem_unusedClassCandidates]
    simp [hsf, hc, hlink]
  · intro hcand
    unfold analyze_unused_classes
    rw [List.mem_insertionSort]
    exact List.mem_map_of_mem _ hcand
  · intro row hrow
    unfold analyze_unused_classes at hrow
    rw [List.mem_insertionSort, List.mem_map] at hrow
    obtain ⟨⟨sf2, c2⟩, hmem, hproj⟩ := hrow
    rw [mem_unusedClassCandidates] at hmem
    exact ⟨sf2, c2, hmem.1, hmem.2.1, hmem.2.2.1, hmem.2.2.2, hproj.symm⟩

/-- C5: for every database state the unused-methods report is sorted by
cyclomatic complexity descending with ties broken by file path, class
name, method name ascending (umRel compares the lexicographic key whose
head is the negated complexity), and the unused-classes report is
sorted by file path then class name ascending (ucRel). -/
theorem audit_report_ordering (db : Database) :
    List.Pairwise umRel (analyze_unused_methods db)
    ∧ List.Pairwise ucRel (analyze_unused_classes db) :=
  ⟨List.sorted_insertionSort umRel _, List.sorted_insertionSort ucRel _⟩

/-- C3: in every row of the usage-statistics report the used count never
exceeds the total count (used is SQL NULL only over an empty table, in
which case total is 0), and whenever total is positive the usage_rate
column equals round(used / total * 100, 1) under round-half-even at one
decimal. -/
theorem get_usage_statistics_rows (db : Database) :
    ∀ row ∈ get_usage_statistics db,
      (∀ u, row.used = some u → u ≤ row.total)
      ∧ (row.used = none → row.total = 0)
      ∧ (0 < row.total →
          ∃ u, row.used = some u ∧
            row.usage_rate = some (roundTo1 ((u : ℚ) / (row.total : ℚ) * 100))) := by
  intro row hrow
  simp only [get_usage_statistics, List.map_cons, List.map_nil, List.mem_cons,
    List.not_mem_nil, or_false] at hrow
  rcases hrow with h | h <;> subst h
  · by_cases he : db.classes.isEmpty
    · have hlen : db.classes.length = 0 := by
        simpa [List.isEmpty_iff, List.length_eq_zero] using he
      simp [addUsageRate, classStatsRow, he, hlen]
    · refine ⟨?_, ?_, ?_⟩
      · intro u hu
        simp only [addUsageRate, classStatsRow, he, if_false] at hu ⊢
        cases hu
        exact List.countP_le_length _
      · intro hu
        simp [addUsageRate, classStatsRow, he] at hu
      · intro _
        refine ⟨db.classes.countP fun c => classUsed db c, ?_, ?_⟩ <;>
          simp [addUsageRate, classStatsRow, he]
  · by_cases he : db.class_methods.isEmpty
    · have hlen : db.class_methods.length = 0 := by
        simpa [List.isEmpty_iff, List.length_eq_zero] using he
      simp [addUsageRate, methodStatsRow, he, hlen]
    · refine ⟨?_, ?_, ?_⟩
      · intro u hu
        simp only [addUsageRate, methodStatsRow, he, if_false] at hu ⊢
        cases hu
        exact List.countP_le_length _
      · intro hu
        simp [addUsageRate, methodStatsRow, he] at hu
      · intro _
        refine ⟨db.class_methods.countP fun m => methodUsed db m, ?_, ?_⟩ <;>
          simp [addUsageRate, methodStatsRow, he]

/-- Witness for C1 at the concrete database dbW1: its single joined
method row passes the anti-join filter and its projection appears in the
report. -/
theorem analyze_unused_methods_mem_witness :
    projUM sfW cW mW ∈ analyze_unused_methods dbW1 :=
  (analyze_unused_methods_mem dbW1 sfW cW mW (by decide)).2.1 (by decide)

/-- Witness for C2: the class with class_id 1 and zero usage rows is in
the unused-classes report of dbW1, and after inserting one
class_usage_references row pointing at class_id 1 (dbW2) the report of a
subsequent run is empty. -/
theorem analyze_unused_classes_mem_witness :
    projUC dbW1 sfW cW ∈ analyze_unused_classes dbW1 ∧
    analyze_unused_classes dbW2 = [] :=
  ⟨(analyze_unused_classes_mem dbW1 sfW cW (by decide) (by decide) rfl).2.1 (by decide),
   by decide⟩

/-- Witness for C3 at the concrete database dbW1: the Classes row has
used = 0 of total 1 and usage rate round(0 / 1 * 100, 1). -/
theorem get_usage_statistics_rows_witness :
    (∀ u, (addUsageRate (classStatsRow dbW1)).used = some u →
        u ≤ (addUsageRate (classStatsRow dbW1)).total)
    ∧ ((addUsageRate (classStatsRow dbW1)).used = none →
        (addUsageRate (classStatsRow dbW1)).total = 0)
    ∧ (0 < (addUsageRate (classStatsRow dbW1)).total →
        ∃ u, (addUsageRate (classStatsRow dbW1)).used = some u ∧
          (addUsageRate (classStatsRow dbW1)).usage_rate =
            some (roundTo1 ((u : ℚ) / ((addUsageRate (classStatsRow dbW1)).total : ℚ) * 100))) :=
  get_usage_statistics_rows dbW1 (addUsageRate (classStatsRow dbW1))
    (by simp [get_usage_statistics])

/-- C4 counterexample: at the structurally malformed document cexDoc the
load fails (its top level has no analyzer key), yet app_name does not
expose its compiled-in default after construction - it was overwritten
before the failing lookup.  Fields after the failure point, such as
excluded_dirs, do keep their defaults, so default retention is partial,
not for every field as claimed. -/
theorem loadPmlConfig_partial_overwrite :
    Yaml.get cexDoc "analyzer" = none
    ∧ (loadPmlConfig (some cexDoc)).app_name = "other"
    ∧ defaultConfig.app_name = "minssalor"
    ∧ (loadPmlConfig (some cexDoc)).excluded_dirs = defaultConfig.excluded_dirs :=
  ⟨rfl, rfl, rfl, rfl⟩

/-- C4 amended: constructing AnalyzerConfig never raises (loadPmlConfig
is total, mirroring the catch-all except clause), and for every
position at which the load can fail, the fields assigned before the
failing lookup hold the loaded values while every later field keeps its
compiled-in default: one conjunct per fallible lookup, from app.name
(all defaults) through logging.file, plus the all-lookups-succeed case
in which every field is loaded and the console flag falls back to True
when absent. -/
theorem loadPmlConfig_defaults :
    loadPmlConfig none = defaultConfig
    ∧ (∀ (y : Yaml),
        getStr y ["app", "name"] = none →
        loadPmlConfig (some y) = defaultConfig)
    ∧ (∀ (y : Yaml) (v1 : String),
        getStr y ["app", "name"] = some v1 →
        getStr y ["app", "lib_dir"] = none →
        loadPmlConfig (some y) =
          { defaultConfig with app_name := v1 })
    ∧ (∀ (y : Yaml) (v1 : String) (v2 : String),
        getStr y ["app", "name"] = some v1 →
        getStr y ["app", "lib_dir"] = some v2 →
        getStrList y ["analyzer", "excluded", "dirs"] = none →
        loadPmlConfig (some y) =
          { defaultConfig with app_name := v1, lib_dir := v2 })
    ∧ (∀ (y : Yaml) (v1 : String) (v2 : String) (v3 : List String),
        getStr y ["app", "name"] = some v1 →
        getStr y ["app", "lib_dir"] = some v2 →
        getStrList y ["analyzer", "excluded", "dirs"] = some v3 →
        getStrList y ["analyzer", "excluded", "files"] = none →
        loadPmlConfig (some y) =
          { defaultConfig with app_name := v1, lib_dir := v2, excluded_dirs := v3 })
    ∧ (∀ (y : Yaml) (v1 : String) (v2 : String) (v3 : List String) (v4 : List String),
        getStr y ["app", "name"] = some v1 →
        getStr y ["app", "lib_dir"] = some v2 →
        getStrList y ["analyzer", "excluded", "dirs"] = some v3 →
        getStrList y ["analyzer", "excluded", "files"] = some v4 →
        getStr y ["analyzer", "database", "dir"] = none →
        loadPmlConfig (some y) =
          { defaultConfig with app_name := v1, lib_dir := v2, excluded_dirs := v3, excluded_files := v4 })
    ∧ (∀ (y : Yaml) (v1 : String) (v2 : String) (v3 : List String) (v4 : List String) (v5 : String),
        getStr y ["app", "name"] = some v1 →
        getStr y ["app", "lib_dir"] = some v2 →
        getStrList y ["analyzer", "excluded", "dirs"] = some v3 →
        getStrList y ["analyzer", "excluded", "files"] = some v4 →
        getStr y ["analyzer", "database", "dir"] = some v5 →
        getStr y ["analyzer", "database", "name"] = none →
        loadPmlConfig (some y) =
          { defaultConfig with app_name := v1, lib_dir := v2, excluded_dirs := v3, excluded_files := v4, db_dir := v5 })
    ∧ (∀ (y : Yaml) (v1 : String) (v2 : String) (v3 : List String) (v4 : List String) (v5 : String) (v6 : String),
        getStr y ["app", "name"] = some v1 →
        getStr y ["app", "lib_dir"] = some v2 →
        getStrList y ["analyzer", "excluded", "dirs"] = some v3 →
        getStrList y ["analyzer", "excluded", "files"] = some v4 →
        getStr y ["analyzer", "database", "dir"] = some v5 →
        getStr y ["analyzer", "database", "name"] = some v6 →
        getBool y ["analyzer", "database", "cleanup_on_start"] = none →
        loadPmlConfig (some y) =
          { defaultConfig with app_name := v1, lib_dir := v2, excluded_dirs := v3, excluded_files := v4, db_dir := v5, db_name := v6 })
    ∧ (∀ (y : Yaml) (v1 : String) (v2 : String) (v3 : List String) (v4 : List String) (v5 : String) (v6 : String) (v7 : Bool),
        getStr y ["app", "name"] = some v1 →
        getStr y ["app", "lib_dir"] = some v2 →
        getStrList y ["analyzer", "excluded", "dirs"] = some v3 →
        getStrList y ["analyzer", "excluded", "files"] = some v4 →
        getStr y ["analyzer", "database", "dir"] = some v5 →
        getStr y ["analyzer", "database", "name"] = some v6 →
        getBool y ["analyzer", "database", "cleanup_on_start"] = some v7 →
        getStr y ["output", "doc_dir"] = none →
        loadPmlConfig (some y) =
          { defaultConfig with app_name := v1, lib_dir := v2, excluded_dirs := v3, excluded_files := v4, db_dir := v5, db_name := v6, cleanup_on_start := v7 })
    ∧ (∀ (y : Yaml) (v1 : String) (v2 : String) (v3 : List String) (v4 : List String) (v5 : String) (v6 : String) (v7 : Bool) (v8 : String),
        getStr y ["app", "name"] = some v1 →
        getStr y ["app", "lib_dir"] = some v2 →
        getStrList y ["analyzer", "excluded", "dirs"] = some v3 →
        getStrList y ["analyzer", "excluded", "files"] = some v4 →
        getStr y ["analyzer", "database", "dir"] = some v5 →
        getStr y ["analyzer", "database", "name"] = some v6 →
        getBool y ["analyzer", "database", "cleanup_on_start"] = some v7 →
        getStr y ["output", "doc_dir"] = some v8 →
        getStr y ["output", "reports_dir"] = none →
        loadPmlConfig (some y) =
          { defaultConfig with app_name := v1, lib_dir := v2, excluded_dirs := v3, excluded_files := v4, db_dir := v5, db_name := v6, cleanup_on_start := v7, output_doc_dir := v8 })
    ∧ (∀ (y : Yaml) (v1 : String) (v2 : String) (v3 : List String) (v4 : List String) (v5 : String) (v6 : String) (v7 : Bool) (v8 : String) (v9 : String),
        getStr y ["app", "name"] = some v1 →
        getStr y ["app", "lib_dir"] = some v2 →
        getStrList y ["analyzer", "excluded", "dirs"] = some v3 →
        getStrList y ["analyzer", "excluded", "files"] = some v4 →
        getStr y ["analyzer", "database", "dir"] = some v5 →
        getStr y ["analyzer", "database", "name"] = some v6 →
        getBool y ["analyzer", "database", "cleanup_on_start"] = some v7 →
        getStr y ["output", "doc_dir"] = some v8 →
        getStr y ["output", "reports_dir"] = some v9 →
        getStr y ["output", "temp_dir"] = none →
        loadPmlConfig (some y) =
          { defaultConfig with app_name := v1, lib_dir := v2, excluded_dirs := v3, excluded_files := v4, db_dir := v5, db_name := v6, cleanup_on_start := v7, output_doc_dir := v8, output_reports_dir := v9 })
    ∧ (∀ (y : Yaml) (v1 : String) (v2 : String) (v3 : List String) (v4 : List String) (v5 : String) (v6 : String) (v7 : Bool) (v8 : String) (v9 : String) (v10 : String),
        getStr y ["app", "name"] = some v1 →
        getStr y ["app", "lib_dir"] = some v2 →
        getStrList y ["analyzer", "excluded", "dirs"] = some v3 →
        getStrList y ["analyzer", "excluded", "files"] = some v4 →
        getStr y ["analyzer", "database", "dir"] = some v5 →
        getStr y ["analyzer", "database", "name"] = some v6 →
        getBool y ["analyzer", "database", "cleanup_on_start"] = some v7 →
        getStr y ["output", "doc_dir"] = some v8 →
        getStr y ["output", "reports_dir"] = some v9 →
        getStr y ["output", "temp_dir"] = some v10 →
        getStr y ["logging", "level"] = none →
        loadPmlConfig (some y) =
          { defaultConfig with app_name := v1, lib_dir := v2, excluded_dirs := v3, excluded_files := v4, db_dir := v5, db_name := v6, cleanup_on_start := v7, output_doc_dir := v8, output_reports_dir := v9, output_temp_dir := v10 })
    ∧ (∀ (y : Yaml) (v1 : String) (v2 : String) (v3 : List String) (v4 : List String) (v5 : String) (v6 : String) (v7 : Bool) (v8 : String) (v9 : String) (v10 : String) (v11 : String),
        getStr y ["app", "name"] = some v1 →
        getStr y ["app", "lib_dir"] = some v2 →
        getStrList y ["analyzer", "excluded", "dirs"] = some v3 →
        getStrList y ["analyzer", "excluded", "files"] = some v4 →
        getStr y ["analyzer", "database", "dir"] = some v5 →
        getStr y ["analyzer", "database", "name"] = some v6 →
        getBool y ["analyzer", "database", "cleanup_on_start"] = some v7 →
        getStr y ["output", "doc_dir"] = some v8 →
        getStr y ["output", "reports_dir"] = some v9 →
        getStr y ["output", "temp_dir"] = some v10 →
        getStr y ["logging", "level"] = some v11 →
        getStr y ["logging", "file"] = none →
        loadPmlConfig (some y) =
          { defaultConfig with app_name := v1, lib_dir := v2, excluded_dirs := v3, excluded_files := v4, db_dir := v5, db_name := v6, cleanup_on_start := v7, output_doc_dir := v8, output_reports_dir := v9, output_temp_dir := v10, log_level := v11 })
    ∧ (∀ (y : Yaml) (v1 : String) (v2 : String) (v3 : List String) (v4 : List String) (v5 : String) (v6 : String) (v7 : Bool) (v8 : String) (v9 : String) (v10 : String) (v11 : String) (v12 : String),
        getStr y ["app", "name"] = some v1 →
        getStr y ["app", "lib_dir"] = some v2 →
        getStrList y ["analyzer", "excluded", "dirs"] = some v3 →
        getStrList y ["analyzer", "excluded", "files"] = some v4 →
        getStr y ["analyzer", "database", "dir"] = some v5 →
        getStr y ["analyzer", "database", "name"] = some v6 →
        getBool y ["analyzer", "database", "cleanup_on_start"] = some v7 →
        getStr y ["output", "doc_dir"] = some v8 →
        getStr y ["output", "reports_dir"] = some v9 →
        getStr y ["output", "temp_dir"] = some v10 →
        getStr y ["logging", "level"] = some v11 →
        getStr y ["logging", "file"] = some v12 →
        loadPmlConfig (some y) =
          { app_name := v1, lib_dir := v2, excluded_dirs := v3,
            excluded_files := v4, db_dir := v5, db_name := v6,
            cleanup_on_start := v7, output_doc_dir := v8,
            output_reports_dir := v9, output_temp_dir := v10,
            log_level := v11, log_file := v12,
            log_to_console := (getBool y ["logging", "console"]).getD true }) := by
  refine ⟨rfl, ?_, ?_, ?_, ?_, ?_, ?_, ?_, ?_, ?_, ?_, ?_, ?_, ?_⟩
  · intro y h1
    simp only [loadPmlConfig, loadFromYaml, h1]
  · intro y v1 h1 h2
    simp only [loadPmlConfig, loadFromYaml, h1, h2]
  · intro y v1 v2 h1 h2 h3
    simp only [loadPmlConfig, loadFromYaml, h1, h2, h3]
  · intro y v1 v2 v3 h1 h2 h3 h4
    simp only [loadPmlConfig, loadFromYaml, h1, h2, h3, h4]
  · intro y v1 v2 v3 v4 h1 h2 h3 h4 h5
    simp only [loadPmlConfig, loadFromYaml, h1, h2, h3, h4, h5]
  · intro y v1 v2 v3 v4 v5 h1 h2 h3 h4 h5 h6
    simp only [loadPmlConfig, loadFromYaml, h1, h2, h3, h4, h5, h6]
  · intro y v1 v2 v3 v4 v5 v6 h1 h2 h3 h4 h5 h6 h7
    simp only [loadPmlConfig, loadFromYaml, h1, h2, h3, h4, h5, h6, h7]
  · intro y v1 v2 v3 v4 v5 v6 v7 h1 h2 h3 h4 h5 h6 h7 h8
    simp only [loadPmlConfig, loadFromYaml, h1, h2, h3, h4, h5, h6, h7, h8]
  · intro y v1 v2 v3 v4 v5 v6 v7 v8 h1 h2 h3 h4 h5 h6 h7 h8 h9
    simp only [loadPmlConfig, loadFromYaml, h1, h2, h3, h4, h5, h6, h7, h8, h9]
  · intro y v1 v2 v3 v4 v5 v6 v7 v8 v9 h1 h2 h3 h4 h5 h6 h7 h8 h9 h10
    simp only [loadPmlConfig, loadFromYaml, h1, h2, h3, h4, h5, h6, h7, h8, h9, h10]
  · intro y v1 v2 v3 v4 v5 v6 v7 v8 v9 v10 h1 h2 h3 h4 h5 h6 h7 h8 h9 h10 h11
    simp only [loadPmlConfig, loadFromYaml, h1, h2, h3, h4, h5, h6, h7, h8, h9, h10, h11]
  · intro y v1 v2 v3 v4 v5 v6 v7 v8 v9 v10 v11 h1 h2 h3 h4 h5 h6 h7 h8 h9 h10 h11 h12
    simp only [loadPmlConfig, loadFromYaml, h1, h2, h3, h4, h5, h6, h7, h8, h9, h10, h11, h12]
  · intro y v1 v2 v3 v4 v5 v6 v7 v8 v9 v10 v11 v12 h1 h2 h3 h4 h5 h6 h7 h8 h9 h10 h11 h12
    simp only [loadPmlConfig, loadFromYaml, h1, h2, h3, h4, h5, h6, h7, h8, h9, h10, h11, h12]

/-- Witness for the amended C4 theorem: an empty table fails the first
lookup and construction yields exactly the defaults, and a document
failing at the eighth lookup (output.doc_dir) yields the seven loaded
fields with defaults everywhere after the failure point. -/
theorem loadPmlConfig_defaults_witness :
    loadPmlConfig (some (Yaml.table [])) = defaultConfig
    ∧ loadPmlConfig (some cexDoc8) =
        { defaultConfig with
            app_name := "other", lib_dir := "src", excluded_dirs := ["src/gen"],
            excluded_files := [".g.dart"], db_dir := "db", db_name := "a.db",
            cleanup_on_start := false } :=
  ⟨loadPmlConfig_defaults.2.1 (Yaml.table []) rfl,
   loadPmlConfig_defaults.2.2.2.2.2.2.2.2.1 cexDoc8 "other" "src" ["src/gen"] [".g.dart"]
     "db" "a.db" false rfl rfl rfl rfl rfl rfl rfl rfl⟩

/-- Stripping is idempotent: a stripped capture is already trimmed. -/
theorem pyStrip_idempotent (s : List Char) : pyStrip (pyStrip s) = pyStrip s := by
  unfold pyStrip
  have hdw : List.dropWhile isPyWs (List.rdropWhile isPyWs (s.dropWhile isPyWs)) =
      List.rdropWhile isPyWs (s.dropWhile isPyWs) := by
    rw [List.dropWhile_eq_self_iff]
    intro hl
    have hpre := List.rdropWhile_prefix isPyWs (s.dropWhile isPyWs)
    have h0 : 0 < (s.dropWhile isPyWs).length := lt_of_lt_of_le hl hpre.length_le
    have hg : (List.rdropWhile isPyWs (s.dropWhile isPyWs)).get ⟨0, hl⟩ =
        (s.dropWhile isPyWs).get ⟨0, h0⟩ := by
      simp only [List.get_eq_getElem]
      exact hpre.getElem hl
    rw [hg]
    have := List.dropWhile_eq_self_iff.mp (@List.dropWhile_idempotent Char isPyWs s)
    exact this h0
  rw [hdw, List.rdropWhile_idempotent]

set_option maxRecDepth 8000 in
/-- C6 counterexample: at a file whose single block holds only
whitespace, extract_claude_doc does return the trimmed inner text (the
empty string), so at least one block exists, yet process_file appends
no record - the Python truthiness test rejects the empty string. -/
theorem process_file_empty_block :
    extract_claude_doc emptyBlockContent = some []
    ∧ process_file "lib" "lib/a.dart" emptyBlockContent [] = [] := by
  constructor <;> decide

/-- C6 amended: extract_claude_doc yields the trimmed inner text of the
first block when the search succeeds and None otherwise, and
process_file appends exactly one record (relative path, trimmed text)
when a block exists and its trimmed text is non-empty; it appends no
record when no block exists or when the trimmed text is empty. -/
theorem process_file_spec (lib_path file_path : String) (content : List Char)
    (docs : List DocRecord) :
    (extract_claude_doc content = none →
        process_file lib_path file_path content docs = docs)
    ∧ (∀ d, extract_claude_doc content = some d → pyStrip d = d)
    ∧ (∀ d, extract_claude_doc content = some d → d ≠ [] →
        process_file lib_path file_path content docs =
          docs ++ [⟨relPathOf lib_path file_path, d⟩])
    ∧ (extract_claude_doc content = some [] →
        process_file lib_path file_path content docs = docs) := by
  refine ⟨?_, ?_, ?_, ?_⟩
  · intro h
    simp [process_file, h]
  · intro d hd
    unfold extract_claude_doc at hd
    obtain ⟨rest, hfo, hmap⟩ := Option.bind_eq_some.mp hd
    obtain ⟨cap, hcap, rfl⟩ := Option.map_eq_some'.mp hmap
    exact pyStrip_idempotent cap
  · intro d hd hne
    have : d.isEmpty = false := by
      cases d with
      | nil => exact absurd rfl hne
      | cons a l => rfl
    simp [process_file, hd, this]
  · intro h
    simp [process_file, h]

set_option maxRecDepth 8000 in
/-- Witness for the amended C6 theorem at a concrete file content: the
block with trimmed text Hello yields exactly one appended record. -/
theorem process_file_spec_witness :
    process_file "lib" "lib/a.dart" docContentW [] =
      [] ++ [⟨relPathOf "lib" "lib/a.dart", "Hello".toList⟩] :=
  (process_file_spec "lib" "lib/a.dart" docContentW []).2.2.1 "Hello".toList
    (by decide) (by decide)

/-- Membership in the walk of a pruned subdirectory list: exactly the
hits inside some child that passed the directory filter. -/
theorem mem_scanSubdirs (excD excF : List String) (path : String) (ts : List FSTree)
    (p f : String) :
    (p, f) ∈ scanSubdirs excD excF path ts ↔
      ∃ t ∈ ts, dirKeep excD path t.name = true ∧
        (p, f) ∈ scanTree excD excF (pathJoin path t.name) t := by
  induction ts with
  | nil => simp [scanSubdirs]
  | cons t ts ih =>
    simp only [scanSubdirs, List.mem_append, ih, List.mem_cons]
    constructor
    · rintro (hin | ⟨t2, ht2, hk, hm⟩)
      · by_cases hk : dirKeep excD path t.name
        · exact ⟨t, Or.inl rfl, hk, by simpa [hk] using hin⟩
        · simp [hk] at hin
      · exact ⟨t2, Or.inr ht2, hk, hm⟩
    · rintro ⟨t2, ht2 | ht2, hk, hm⟩
      · subst ht2
        left
        simp [hk, hm]
      · right
        exact ⟨t2, ht2, hk, hm⟩

/-- Size-bounded induction step for the walk: every processed pair
passes the file filter, and its directory is the root itself or a path
that matches no excluded prefix. -/
theorem scanTree_mem_aux (excD excF : List String) :
    ∀ (n : Nat) (t : FSTree) (path p f : String), sizeOf t ≤ n →
      (p, f) ∈ scanTree excD excF path t →
      fileKeep excF f = true ∧ (p = path ∨ ∀ e ∈ excD, pyStartsWith p e = false) := by
  intro n
  induction n with
  | zero =>
    intro t path p f hsz
    cases t with
    | node nm subs fls => simp at hsz
  | succ n ih =>
    intro t path p f hsz hmem
    cases t with
    | node nm subs fls =>
      rw [scanTree, List.mem_append] at hmem
      rcases hmem with hfile | hsub
      · rw [List.mem_map] at hfile
        obtain ⟨f2, hf2, heq⟩ := hfile
        rw [List.mem_filter] at hf2
        cases heq
        exact ⟨hf2.2, Or.inl rfl⟩
      · rw [mem_scanSubdirs] at hsub
        obtain ⟨t2, ht2, hk, hm⟩ := hsub
        have hlt : sizeOf t2 < sizeOf subs := List.sizeOf_lt_of_mem ht2
        have hsz2 : sizeOf t2 ≤ n := by
          simp at hsz
          omega
        obtain ⟨hfk, hp⟩ := ih t2 (pathJoin path t2.name) p f hsz2 hm
        refine ⟨hfk, Or.inr ?_⟩
        rcases hp with rfl | hclean
        · simpa [dirKeep, Bool.not_eq_true', List.any_eq_false] using hk
        · exact hclean

/-- C7 amended: every file processed by scan_directory ends with .dart
and with none of the excluded suffixes, and is processed from a
directory that either is the source root itself or whose path begins
with no excluded prefix.  The root qualification is necessary: os.walk
prunes subdirectories only, never its own starting directory. -/
theorem scan_directory_filters (excD excF : List String) (path : String) (t : FSTree)
    (p f : String) (hmem : (p, f) ∈ scanTree excD excF path t) :
    (pyEndsWith f ".dart" = true ∧ ∀ e ∈ excF, pyEndsWith f e = false)
    ∧ (p = path ∨ ∀ e ∈ excD, pyStartsWith p e = false) := by
  obtain ⟨hfk, hp⟩ := scanTree_mem_aux excD excF (sizeOf t) t path p f (le_refl _) hmem
  refine ⟨?_, hp⟩
  simpa [fileKeep, Bool.not_eq_true', List.any_eq_false] using hfk

set_option maxRecDepth 8000 in
/-- C7 counterexample: with the source root lib itself listed as an
excluded directory prefix, the file directly under the root is still
processed, although its containing directory path begins with an
excluded prefix - os.walk never prunes its starting directory. -/
theorem scan_directory_root_processed :
    scanTree ["lib"] [] "lib" rootOnlyTree = [("lib", "a.dart")]
    ∧ pyStartsWith "lib" "lib" = true := by
  constructor <;> decide

set_option maxRecDepth 8000 in
/-- Witness for the amended C7 theorem: in the witness tree the file
a.dart processed from lib/src passes both suffix conditions, and
lib/src matches no excluded prefix. -/
theorem scan_directory_filters_witness :
    (pyEndsWith "a.dart" ".dart" = true
      ∧ ∀ e ∈ [".freezed.dart", ".g.dart", "_test.dart"], pyEndsWith "a.dart" e = false)
    ∧ ("lib/src" = "lib" ∨ ∀ e ∈ ["lib/generated"], pyStartsWith "lib/src" e = false) :=
  scan_directory_filters ["lib/generated"] [".freezed.dart", ".g.dart", "_test.dart"] "lib"
    witnessTree "lib/src" "a.dart" (by decide)

/-- Preprocessing keeps a column dtype. -/
theorem preprocessColumn_dtype (c : Column) : (preprocessColumn c).dtype = c.dtype := by
  unfold preprocessColumn
  split <;> rfl

/-- Filling then Yes/No mapping never leaves a missing value. -/
theorem yesNo_fill_ne_na (x : Cell) : yesNoCell (fillCell x) ≠ Cell.na := by
  cases x with
  | b v => cases v <;> simp [fillCell, yesNoCell]
  | _ => simp [fillCell, yesNoCell]

/-- Filling alone never leaves a missing value. -/
theorem fill_ne_na (x : Cell) : fillCell x ≠ Cell.na := by
  cases x <;> simp [fillCell]

/-- C8 counterexample: for the database whose one method is
asynchronous, the exported Methods sheet holds is_async as the integer
cell 1, not as the string Yes or No - sqlite3 yields ints, so the
column dtype is int64 and select_dtypes(include=bool) never selects
it. -/
theorem export_methods_is_async_int :
    (exportedMethodsSheet dbW8).map (fun p => findCol p.2 "is_async") =
      [some ⟨"is_async", DType.int, [Cell.i 1]⟩]
    ∧ Cell.i 1 ≠ Cell.s "Yes" ∧ Cell.i 1 ≠ Cell.s "No" := by
  refine ⟨by decide, by decide, by decide⟩

/-- C8 amended: export_to_excel replaces every missing value by the
empty string and maps every column whose dtype is bool to the literal
strings Yes and No; however the is_async and is_static columns of the
Methods sheet built by analyze_methods carry the int dtype (SQLite
stores booleans as integers), so they are written as the integers 0/1,
not as Yes/No. -/
theorem export_to_excel_normalizes (dfs : List (String × List Column))
    (h : ∀ p ∈ dfs, ∀ col ∈ p.2, col.dtype = DType.boolT →
        ∀ cell ∈ col.cells, ∃ bv, cell = Cell.b bv) :
    (∀ p ∈ export_to_excel dfs, ∀ col ∈ p.2,
      (∀ cell ∈ col.cells, cell ≠ Cell.na)
      ∧ (col.dtype = DType.boolT →
          ∀ cell ∈ col.cells, cell = Cell.s "Yes" ∨ cell = Cell.s "No"))
    ∧ (∀ db : Database, ∀ col ∈ analyze_methods db,
        (col.name = "is_async" ∨ col.name = "is_static") → col.dtype = DType.int) := by
  constructor
  · intro p hp col hcol
    rw [export_to_excel, List.mem_map] at hp
    obtain ⟨q, hq, rfl⟩ := hp
    rw [List.mem_map] at hcol
    obtain ⟨c0, hc0, rfl⟩ := hcol
    constructor
    · intro cell hcell
      unfold preprocessColumn at hcell
      by_cases hb : c0.dtype = DType.boolT
      · rw [if_pos hb] at hcell
        simp only [List.mem_map] at hcell
        obtain ⟨x, hx, rfl⟩ := hcell
        obtain ⟨y, hy, rfl⟩ := hx
        exact yesNo_fill_ne_na y
      · rw [if_neg hb] at hcell
        simp only [List.mem_map] at hcell
        obtain ⟨x, hx, rfl⟩ := hcell
        exact fill_ne_na x
    · intro hdt cell hcell
      rw [preprocessColumn_dtype] at hdt
      have hcells := h q hq c0 hc0 hdt
      unfold preprocessColumn at hcell
      rw [if_pos hdt] at hcell
      simp only [List.mem_map] at hcell
      obtain ⟨x, hx, rfl⟩ := hcell
      obtain ⟨y, hy, rfl⟩ := hx
      obtain ⟨bv, rfl⟩ := hcells y hy
      cases bv
      · right; rfl
      · left; rfl
  · intro db col hcol
    simp only [analyze_methods, List.mem_cons, List.not_mem_nil, or_false] at hcol
    rcases hcol with rfl | rfl | rfl | rfl | rfl | rfl | rfl | rfl | rfl <;> simp

/-- Witness for the amended C8 theorem at a concrete one-sheet frame
with a genuine bool column. -/
theorem export_to_excel_normalizes_witness :
    (∀ p ∈ export_to_excel dfsW, ∀ col ∈ p.2,
      (∀ cell ∈ col.cells, cell ≠ Cell.na)
      ∧ (col.dtype = DType.boolT →
          ∀ cell ∈ col.cells, cell = Cell.s "Yes" ∨ cell = Cell.s "No"))
    ∧ (∀ db : Database, ∀ col ∈ analyze_methods db,
        (col.name = "is_async" ∨ col.name = "is_static") → col.dtype = DType.int) :=
  export_to_excel_normalizes dfsW (by decide)

/-- Every width assignment of the formatting loop belongs to one of the
columns. -/
theorem mem_formatFrom (i : Nat) (cols : List Column) (pr : Char × Nat) :
    pr ∈ formatFrom i cols → ∃ c ∈ cols, pr.2 = columnWidth c := by
  induction cols generalizing i with
  | nil => simp [formatFrom]
  | cons c cs ih =>
    intro hmem
    simp only [formatFrom, List.mem_cons] at hmem
    rcases hmem with rfl | hmem
    · exact ⟨c, List.mem_cons_self c cs, rfl⟩
    · obtain ⟨c2, hc2, hw⟩ := ih (i + 1) hmem
      exact ⟨c2, List.mem_cons_of_mem c hc2, hw⟩

/-- Letter assigned by the formatting loop to each index. -/
theorem mem_formatFrom_fst (i : Nat) (cols : List Column) (pr : Char × Nat) :
    pr ∈ formatFrom i cols → ∃ j, j < cols.length ∧ pr.1 = Char.ofNat (65 + i + j) := by
  induction cols generalizing i with
  | nil => simp [formatFrom]
  | cons c cs ih =>
    intro hmem
    simp only [formatFrom, List.mem_cons] at hmem
    rcases hmem with rfl | hmem
    · exact ⟨0, by simp, rfl⟩
    · obtain ⟨j, hj, hpr⟩ := ih (i + 1) hmem
      refine ⟨j + 1, by simpa using hj, ?_⟩
      rw [hpr]
      congr 1
      omega

/-- The formatting loop keeps the column count. -/
theorem formatFrom_length (i : Nat) (cols : List Column) :
    (formatFrom i cols).length = cols.length := by
  induction cols generalizing i with
  | nil => rfl
  | cons c cs ih => simp [formatFrom, ih]

/-- Entry of the formatting loop at an index. -/
theorem formatFrom_get (i : Nat) (cols : List Column) (j : Nat)
    (hj : j < (formatFrom i cols).length) :
    ((formatFrom i cols).get ⟨j, hj⟩).1 = Char.ofNat (65 + i + j) := by
  induction cols generalizing i j with
  | nil => simp [formatFrom] at hj
  | cons c cs ih =>
    cases j with
    | zero => rfl
    | succ j =>
      have := ih (i + 1) j (by simpa [formatFrom] using hj)
      simpa [formatFrom, Nat.add_assoc, Nat.add_comm, Nat.add_left_comm] using this

/-- C9 counterexample: for a single column whose header and single cell
both have length 1, the assigned width is min(1 + 2, 50) = 3, not the
longer of the header length and the longest cell, which is 1 - the
source adds 2 padding units before capping. -/
theorem format_excel_sheet_pad :
    format_excel_sheet [colW9] = [('A', 3)]
    ∧ colMaxLen colW9 = 1 ∧ (3 : Nat) ≠ 1 := by
  refine ⟨by decide, by decide, by decide⟩

/-- C9 amended: every width written by the sheet formatters equals
min(longer-of(header length, longest stringified cell length) + 2, 50)
for its column, and in particular never exceeds 50 units. -/
theorem format_excel_sheet_widths (cols : List Column) :
    ∀ pr ∈ format_excel_sheet cols,
      pr.2 ≤ 50 ∧ ∃ c ∈ cols, pr.2 = min (colMaxLen c + 2) 50 := by
  intro pr hpr
  obtain ⟨c, hc, hw⟩ := mem_formatFrom 0 cols pr hpr
  exact ⟨hw ▸ min_le_right _ _, c, hc, hw⟩

/-- Witness for the amended C9 theorem at the concrete one-column
frame. -/
theorem format_excel_sheet_widths_witness :
    (('A', 3) : Char × Nat).2 ≤ 50
    ∧ ∃ c ∈ [colW9], (('A', 3) : Char × Nat).2 = min (colMaxLen c + 2) 50 :=
  format_excel_sheet_widths [colW9] ('A', 3) (by decide)

/-- A letter position below 26 is a capital letter. -/
theorem charOfNat_letter (j : Nat) (hj : j < 26) :
    'A' ≤ Char.ofNat (65 + j) ∧ Char.ofNat (65 + j) ≤ 'Z' := by
  interval_cases j <;> exact ⟨by decide, by decide⟩

/-- Numeric value of the character produced by chr: the code point
itself when valid, the null character otherwise. -/
theorem charOfNat_toNat (n : Nat) :
    (Char.ofNat n).val.toBitVec.toNat = if n.isValidChar then n else 0 := by
  unfold Char.ofNat
  split
  · simp [Char.ofNatAux, BitVec.toNat_ofNatLt]
  · simp

/-- A code point from 91 on is never a capital letter, whether or not
it is a valid scalar value. -/
theorem charOfNat_outside (n : Nat) (hn : 91 ≤ n) :
    ¬('A' ≤ Char.ofNat n ∧ Char.ofNat n ≤ 'Z') := by
  rintro ⟨h1, h2⟩
  rw [Char.le_def, UInt32.le_def, BitVec.le_def] at h1 h2
  have hA : (('A').val.toBitVec).toNat = 65 := rfl
  have hZ : (('Z').val.toBitVec).toNat = 90 := rfl
  have hn2 := charOfNat_toNat n
  by_cases hv : n.isValidChar
  · rw [if_pos hv] at hn2
    omega
  · rw [if_neg hv] at hn2
    omega

/-- C10: the sheet formatters address spreadsheet columns as
chr(65 + index); with at most 26 columns every assignment targets a
letter between A and Z, while any assignment at index 26 or beyond
targets a character outside that range, so the formatting is valid
only under the at-most-26-columns precondition. -/
theorem format_excel_sheet_letters (cols : List Column) :
    (cols.length ≤ 26 → ∀ pr ∈ format_excel_sheet cols, 'A' ≤ pr.1 ∧ pr.1 ≤ 'Z')
    ∧ (∀ j, 26 ≤ j → ∀ hj : j < (format_excel_sheet cols).length,
        ¬('A' ≤ ((format_excel_sheet cols).get ⟨j, hj⟩).1
          ∧ ((format_excel_sheet cols).get ⟨j, hj⟩).1 ≤ 'Z')) := by
  constructor
  · intro hlen pr hpr
    obtain ⟨j, hj, hfst⟩ := mem_formatFrom_fst 0 cols pr hpr
    rw [hfst]
    simpa using charOfNat_letter j (lt_of_lt_of_le hj hlen)
  · intro j hj26 hj
    have hval : ((format_excel_sheet cols).get ⟨j, hj⟩).1 = Char.ofNat (65 + 0 + j) :=
      formatFrom_get 0 cols j hj
    rw [hval]
    exact charOfNat_outside (65 + 0 + j) (by omega)

/-- Witness for C10 at twenty-seven concrete columns: the first
assignment is still a letter, the twenty-seventh is not. -/
theorem format_excel_sheet_letters_witness :
    (∀ pr ∈ format_excel_sheet (colsW10.take 26), 'A' ≤ pr.1 ∧ pr.1 ≤ 'Z')
    ∧ ¬('A' ≤ ((format_excel_sheet colsW10).get ⟨26, by decide⟩).1
        ∧ ((format_excel_sheet colsW10).get ⟨26, by decide⟩).1 ≤ 'Z') :=
  ⟨(format_excel_sheet_letters (colsW10.take 26)).1 (by decide),
   (format_excel_sheet_letters colsW10).2 26 (by decide) (by decide)⟩
